import Mathlib

/-!
Shallow embedding of the `async-timers` crate (src/src/lib.rs).

Time is abstract: instants and durations are natural numbers of clock ticks,
and the monotonic clock reading `now` (resp. the poll time `t`) is passed
explicitly to every operation that reads the clock. The two timer types are
closed-variant state machines; their asynchronous `tick` operations are
embedded as poll-step functions `pollTick : State → Instant → Poll α × State`
returning the poll result together with the timer state after that poll —
in the Rust source the `*self = ...` mutations happen exactly on the poll
that returns `Ready`, and a poll that returns `Pending` leaves the timer
untouched, which this embedding records in the returned state component.
-/

namespace AsyncTimers

/-- Monotonic-clock instants (`tokio::time::Instant`), as abstract clock ticks. -/
abbrev Instant := Nat

/-- Durations (`tokio::time::Duration`); nonnegative by construction, so `Nat`. -/
abbrev Duration := Nat

/-- Embedding of `std::task::Poll`. -/
inductive Poll (α : Type) where
  | Ready (value : α)
  | Pending
  deriving DecidableEq

/-- `NeverExpire::poll` (src/src/lib.rs lines 18-27): unconditionally returns
`Poll::Pending`, ignoring its context. Its `Output` type is `Instant`. -/
def NeverExpire.poll : Poll Instant := Poll.Pending

/-- Embedding of `tokio::time::Interval`: the next scheduled deadline together
with the period. Missed-tick behavior is tokio's default `Burst`. -/
structure Interval where
  deadline : Instant
  period : Duration
  deriving DecidableEq

/-- `tokio::time::interval(period)` called at clock time `now`: per tokio's
documentation it equals `interval_at(Instant::now(), period)`, so the first
deadline is `now` itself and the first tick completes immediately. -/
def interval (now : Instant) (period : Duration) : Interval :=
  { deadline := now, period := period }

/-- `tokio::time::Interval::poll_tick` at clock time `t`: if the scheduled
deadline has elapsed it returns that deadline and advances it by exactly one
period (`MissedTickBehavior::Burst`, so missed deadlines fire back-to-back);
otherwise it is pending and the interval is unchanged. -/
def Interval.poll_tick (itv : Interval) (t : Instant) : Poll Instant × Interval :=
  if itv.deadline ≤ t then
    (Poll.Ready itv.deadline, { deadline := itv.deadline + itv.period, period := itv.period })
  else
    (Poll.Pending, itv)

/-- `PeriodicTimer` (src/src/lib.rs lines 59-64): `Started(Interval)` or
`Stopped`; `#[default]` marks `Stopped`. -/
inductive PeriodicTimer where
  | Started (itv : Interval)
  | Stopped
  deriving DecidableEq

/-- `#[derive(Default)]` on `PeriodicTimer`: the `#[default]` variant is `Stopped`. -/
def PeriodicTimer.default : PeriodicTimer := PeriodicTimer.Stopped

/-- `PeriodicTimer::started(period)` at clock time `now`. -/
def PeriodicTimer.started (now : Instant) (period : Duration) : PeriodicTimer :=
  PeriodicTimer.Started (interval now period)

/-- `PeriodicTimer::stopped()`. -/
def PeriodicTimer.stopped : PeriodicTimer := PeriodicTimer.Stopped

/-- `PeriodicTimer::start(&mut self, period)`: `*self = Self::started(period)`. -/
def PeriodicTimer.start (_self : PeriodicTimer) (now : Instant) (period : Duration) :
    PeriodicTimer :=
  PeriodicTimer.started now period

/-- `PeriodicTimer::stop(&mut self)`: `*self = Self::stopped()`. -/
def PeriodicTimer.stop (_self : PeriodicTimer) : PeriodicTimer :=
  PeriodicTimer.stopped

/-- One poll of the future returned by `PeriodicTimer::tick` (src/src/lib.rs
lines 88-93), at clock time `t`. `Started` delegates to `Interval::tick`
(i.e. `poll_tick`); `Stopped` awaits `NeverExpire`, which never completes. -/
def PeriodicTimer.pollTick (s : PeriodicTimer) (t : Instant) :
    Poll Instant × PeriodicTimer :=
  match s with
  | PeriodicTimer.Started itv =>
      match itv.poll_tick t with
      | (Poll.Ready i, itv2) => (Poll.Ready i, PeriodicTimer.Started itv2)
      | (Poll.Pending, itv2) => (Poll.Pending, PeriodicTimer.Started itv2)
  | PeriodicTimer.Stopped => (NeverExpire.poll, PeriodicTimer.Stopped)

/-- `OneshotTimer` (src/src/lib.rs lines 124-129): `Scheduled(Instant)` or
`Expired`; `#[default]` marks `Expired`. `Expired` carries no data. -/
inductive OneshotTimer where
  | Scheduled (deadline : Instant)
  | Expired
  deriving DecidableEq

/-- `#[derive(Default)]` on `OneshotTimer`: the `#[default]` variant is `Expired`. -/
def OneshotTimer.default : OneshotTimer := OneshotTimer.Expired

/-- `OneshotTimer::scheduled(duration)` at clock time `now`:
`Self::Scheduled(Instant::now() + duration)`. -/
def OneshotTimer.scheduled (now : Instant) (duration : Duration) : OneshotTimer :=
  OneshotTimer.Scheduled (now + duration)

/-- `OneshotTimer::expired()`. -/
def OneshotTimer.expired : OneshotTimer := OneshotTimer.Expired

/-- `OneshotTimer::schedule(&mut self, duration)`: `*self = Self::scheduled(duration)`. -/
def OneshotTimer.schedule (_self : OneshotTimer) (now : Instant) (duration : Duration) :
    OneshotTimer :=
  OneshotTimer.scheduled now duration

/-- `OneshotTimer::cancel(&mut self)`: `*self = Self::expired()`. -/
def OneshotTimer.cancel (_self : OneshotTimer) : OneshotTimer :=
  OneshotTimer.expired

/-- Polling `tokio::time::sleep_until(deadline)` at clock time `t`: ready iff
the deadline has elapsed. -/
def sleepUntilPoll (deadline : Instant) (t : Instant) : Poll Unit :=
  if deadline ≤ t then Poll.Ready () else Poll.Pending

/-- One poll of the future returned by `OneshotTimer::tick` (src/src/lib.rs
lines 153-163), at clock time `t`. In the `Scheduled` branch the body is
`sleep_until(*instant).await; *self = Self::expired()`: the state mutation
happens only when the sleep completes. The `Expired` branch awaits
`NeverExpire` (discarding its output), which never completes. -/
def OneshotTimer.pollTick (s : OneshotTimer) (t : Instant) :
    Poll Unit × OneshotTimer :=
  match s with
  | OneshotTimer.Scheduled d =>
      match sleepUntilPoll d t with
      | Poll.Ready _ => (Poll.Ready (), OneshotTimer.Expired)
      | Poll.Pending => (Poll.Pending, OneshotTimer.Scheduled d)
  | OneshotTimer.Expired =>
      match NeverExpire.poll with
      | Poll.Ready _ => (Poll.Ready (), OneshotTimer.Expired)
      | Poll.Pending => (Poll.Pending, OneshotTimer.Expired)

/-- Iterated polling of a `PeriodicTimer`'s tick futures at a sequence of
clock times, keeping only the evolving timer state. -/
def PeriodicTimer.pollTrace (s : PeriodicTimer) (ts : List Instant) : PeriodicTimer :=
  ts.foldl (fun st t => (st.pollTick t).2) s

/-- Iterated polling of a `OneshotTimer`'s tick futures at a sequence of
clock times, keeping only the evolving timer state. -/
def OneshotTimer.pollTrace (s : OneshotTimer) (ts : List Instant) : OneshotTimer :=
  ts.foldl (fun st t => (st.pollTick t).2) s

/-- Panic paths of the external tokio constructors, embedded as error values
instead of being collapsed. -/
inductive TimerPanic where
  | zeroPeriod
  deriving DecidableEq

/-- `tokio::time::interval(period)` with its panic path made explicit: tokio's
source asserts `period > Duration::ZERO` ("period must be non-zero") and
panics on a zero period before constructing the interval of `interval`. -/
def intervalChecked (now : Instant) (period : Duration) : Except TimerPanic Interval :=
  if period = 0 then Except.error TimerPanic.zeroPeriod
  else Except.ok (interval now period)

/-- `PeriodicTimer::start` routed through the panic-aware constructor: the
call panics (here: an `Except.error`) exactly when the period is zero,
otherwise it succeeds with the same state `start` produces. -/
def PeriodicTimer.startChecked (_self : PeriodicTimer) (now : Instant) (period : Duration) :
    Except TimerPanic PeriodicTimer :=
  (intervalChecked now period).map PeriodicTimer.Started

/-- Claim C1, evaluated at the failing input: a `PeriodicTimer` started at
clock time `now = 0` with period `2` is `Started` with first deadline `0`
(= `now`: tokio's `interval` makes the first tick complete immediately), not
`2` (= `now + period`), and its very first poll, at the instant of creation,
already completes with `Ready`. -/
theorem periodic_started_fires_immediately :
    PeriodicTimer.started 0 2 = PeriodicTimer.Started { deadline := 0, period := 2 } ∧
    PeriodicTimer.pollTick (PeriodicTimer.started 0 2) 0
      = (Poll.Ready 0, PeriodicTimer.Started { deadline := 2, period := 2 }) :=
  ⟨rfl, by decide⟩

/-- Claim C2: polling a `Scheduled` oneshot's tick is pending until the
deadline elapses and then completes, transitioning the timer to `Expired`;
moreover a completing poll can only arise from a `Scheduled` state whose
deadline has elapsed, and it always leaves the timer `Expired` — the only
elapsed-time path from `Scheduled` to `Expired`. -/
theorem oneshot_tick_scheduled_to_expired :
    (∀ d t : Instant, OneshotTimer.pollTick (OneshotTimer.Scheduled d) t
        = if d ≤ t then (Poll.Ready (), OneshotTimer.Expired)
          else (Poll.Pending, OneshotTimer.Scheduled d)) ∧
    (∀ (s : OneshotTimer) (t : Instant),
        (OneshotTimer.pollTick s t).1 = Poll.Ready () →
        ∃ d, s = OneshotTimer.Scheduled d ∧ d ≤ t ∧
          (OneshotTimer.pollTick s t).2 = OneshotTimer.Expired) := by
  constructor
  · intro d t
    by_cases h : d ≤ t <;> simp [OneshotTimer.pollTick, sleepUntilPoll, h]
  · intro s t h
    cases s with
    | Scheduled d =>
        by_cases hd : d ≤ t
        · exact ⟨d, rfl, hd, by simp [OneshotTimer.pollTick, sleepUntilPoll, hd]⟩
        · simp [OneshotTimer.pollTick, sleepUntilPoll, hd] at h
    | Expired =>
        simp [OneshotTimer.pollTick, NeverExpire.poll] at h

/-- Witness for C2 at `d = 3`, `t = 5`. -/
theorem oneshot_tick_scheduled_to_expired_witness :
    ∃ d, OneshotTimer.Scheduled 3 = OneshotTimer.Scheduled d ∧ d ≤ 5 ∧
      (OneshotTimer.pollTick (OneshotTimer.Scheduled 3) 5).2 = OneshotTimer.Expired :=
  oneshot_tick_scheduled_to_expired.2 (OneshotTimer.Scheduled 3) 5 (by decide)

/-- Claim C3: for both timer types, a poll of a tick future that does not
complete (returns `Pending`, as every poll of a branch abandoned before
completion does) leaves the timer state — a `Scheduled` oneshot's deadline, a
`Started` periodic timer's next deadline — exactly as it was; conversely, any
state change at all requires the poll to have returned `Ready`, so state is
mutated only on actual completion. -/
theorem tick_pending_preserves_state :
    (∀ (s : OneshotTimer) (t : Instant),
        (OneshotTimer.pollTick s t).1 = Poll.Pending → (OneshotTimer.pollTick s t).2 = s) ∧
    (∀ (s : PeriodicTimer) (t : Instant),
        (PeriodicTimer.pollTick s t).1 = Poll.Pending → (PeriodicTimer.pollTick s t).2 = s) ∧
    (∀ (s : OneshotTimer) (t : Instant),
        (OneshotTimer.pollTick s t).2 ≠ s → (OneshotTimer.pollTick s t).1 = Poll.Ready ()) ∧
    (∀ (s : PeriodicTimer) (t : Instant),
        (PeriodicTimer.pollTick s t).2 ≠ s →
          ∃ i, (PeriodicTimer.pollTick s t).1 = Poll.Ready i) := by
  refine ⟨?_, ?_, ?_, ?_⟩
  · intro s t h
    cases s with
    | Scheduled d =>
        by_cases hd : d ≤ t
        · simp [OneshotTimer.pollTick, sleepUntilPoll, hd] at h
        · simp [OneshotTimer.pollTick, sleepUntilPoll, hd]
    | Expired => rfl
  · intro s t h
    cases s with
    | Started itv =>
        by_cases hd : itv.deadline ≤ t
        · simp [PeriodicTimer.pollTick, Interval.poll_tick, hd] at h
        · simp [PeriodicTimer.pollTick, Interval.poll_tick, hd]
    | Stopped => rfl
  · intro s t h
    cases s with
    | Scheduled d =>
        by_cases hd : d ≤ t
        · simp [OneshotTimer.pollTick, sleepUntilPoll, hd]
        · simp [OneshotTimer.pollTick, sleepUntilPoll, hd] at h
    | Expired => simp [OneshotTimer.pollTick, NeverExpire.poll] at h
  · intro s t h
    cases s with
    | Started itv =>
        by_cases hd : itv.deadline ≤ t
        · exact ⟨itv.deadline, by simp [PeriodicTimer.pollTick, Interval.poll_tick, hd]⟩
        · simp [PeriodicTimer.pollTick, Interval.poll_tick, hd] at h
    | Stopped => simp [PeriodicTimer.pollTick, NeverExpire.poll] at h

/-- Witness for C3: a pending poll (at `t = 3`, before deadline `5`) leaves a
`Scheduled` oneshot unchanged. -/
theorem tick_pending_preserves_state_witness :
    (OneshotTimer.pollTick (OneshotTimer.Scheduled 5) 3).2 = OneshotTimer.Scheduled 5 :=
  tick_pending_preserves_state.1 (OneshotTimer.Scheduled 5) 3 (by decide)

/-- Claim C4: `NeverExpire`'s poll is always `Pending`; every poll of a
`Stopped` periodic timer's tick or an `Expired` oneshot's tick is `Pending`
with the state unchanged, and iterating polls over any sequence of clock
times never changes the state either. -/
theorem inactive_tick_never_completes :
    NeverExpire.poll = Poll.Pending ∧
    (∀ t, PeriodicTimer.pollTick PeriodicTimer.Stopped t
        = (Poll.Pending, PeriodicTimer.Stopped)) ∧
    (∀ t, OneshotTimer.pollTick OneshotTimer.Expired t
        = (Poll.Pending, OneshotTimer.Expired)) ∧
    (∀ ts, PeriodicTimer.pollTrace PeriodicTimer.Stopped ts = PeriodicTimer.Stopped) ∧
    (∀ ts, OneshotTimer.pollTrace OneshotTimer.Expired ts = OneshotTimer.Expired) := by
  refine ⟨rfl, fun t => rfl, fun t => rfl, ?_, ?_⟩
  · intro ts
    induction ts with
    | nil => rfl
    | cons a l ih =>
        simpa [PeriodicTimer.pollTrace, PeriodicTimer.pollTick, NeverExpire.poll] using ih
  · intro ts
    induction ts with
    | nil => rfl
    | cons a l ih =>
        simpa [OneshotTimer.pollTrace, OneshotTimer.pollTick, NeverExpire.poll] using ih

/-- Claim C5: `scheduled` and `schedule` both produce `Scheduled (now + d)`
where `now` is the clock reading at the moment of the call; `schedule`'s
result is independent of the prior state, so any pending deadline is
overridden and re-arming is never anchored to the original schedule time. -/
theorem oneshot_schedule_sets_now_plus_duration :
    (∀ now d, OneshotTimer.scheduled now d = OneshotTimer.Scheduled (now + d)) ∧
    (∀ s now d, OneshotTimer.schedule s now d = OneshotTimer.Scheduled (now + d)) :=
  ⟨fun _ _ => rfl, fun _ _ _ => rfl⟩

/-- Claim C6: `cancel` sends every state to `Expired`, and after a cancel no
poll of `tick` at any time ever completes — the previously scheduled deadline
can no longer cause a resolution. -/
theorem oneshot_cancel_expires :
    (∀ s, OneshotTimer.cancel s = OneshotTimer.Expired) ∧
    (∀ s t, OneshotTimer.pollTick (OneshotTimer.cancel s) t
        = (Poll.Pending, OneshotTimer.Expired)) :=
  ⟨fun _ => rfl, fun _ _ => rfl⟩

/-- Claim C7: completing a `Started` periodic timer's tick at a time past the
deadline returns the scheduled firing instant, advances the deadline by
exactly one period, and leaves the timer `Started` with the same period; and
if the advanced deadline has also already elapsed, the next tick completes
immediately as well (back-to-back catch-up). -/
theorem periodic_tick_advances_one_period (itv : Interval) (t : Instant)
    (h : itv.deadline ≤ t) :
    PeriodicTimer.pollTick (PeriodicTimer.Started itv) t
      = (Poll.Ready itv.deadline,
         PeriodicTimer.Started
           { deadline := itv.deadline + itv.period, period := itv.period }) ∧
    ∀ t2, itv.deadline + itv.period ≤ t2 →
      (PeriodicTimer.pollTick
          ((PeriodicTimer.pollTick (PeriodicTimer.Started itv) t).2) t2).1
        = Poll.Ready (itv.deadline + itv.period) := by
  constructor
  · simp [PeriodicTimer.pollTick, Interval.poll_tick, h]
  · intro t2 h2
    simp [PeriodicTimer.pollTick, Interval.poll_tick, h, h2]

/-- Witness for C7 at deadline `1`, period `2`, polled at `t = 5` and again at
`t2 = 5`: both the fire at the old deadline and the immediate catch-up fire. -/
theorem periodic_tick_advances_one_period_witness :
    (PeriodicTimer.pollTick (PeriodicTimer.Started { deadline := 1, period := 2 }) 5
        = (Poll.Ready 1, PeriodicTimer.Started { deadline := 3, period := 2 })) ∧
    (PeriodicTimer.pollTick
        ((PeriodicTimer.pollTick
            (PeriodicTimer.Started { deadline := 1, period := 2 }) 5).2) 5).1
      = Poll.Ready 3 := by
  have h := periodic_tick_advances_one_period { deadline := 1, period := 2 } 5 (by decide)
  exact ⟨h.1, h.2 5 (by decide)⟩

/-- Counterexample to claim C8 as stated: `Duration::ZERO` is a well-formed
duration, yet `start` with period `0` (from any state, here `Stopped` at
`now = 0`) hits `tokio::time::interval`'s non-zero-period assertion and
panics instead of totally succeeding. -/
theorem control_surface_zero_period_counterexample :
    PeriodicTimer.startChecked PeriodicTimer.Stopped 0 0
      = Except.error TimerPanic.zeroPeriod := rfl

/-- Claim C8 (amended): `stop` and `cancel` are total with no failure mode on
every timer state, and `schedule` is total on every state and duration under
the model's ideal instant arithmetic; `start`, however, succeeds exactly on
non-zero periods — with a zero period it panics in `tokio::time::interval`'s
assertion rather than returning, and with a non-zero period it succeeds with
the legal `Started` variant and no intermediate state. -/
theorem control_surface_total_amended :
    (∀ (s : PeriodicTimer) (now p : Instant), p ≠ 0 →
        PeriodicTimer.startChecked s now p
          = Except.ok (PeriodicTimer.Started (interval now p))) ∧
    (∀ (s : PeriodicTimer) (now : Instant),
        PeriodicTimer.startChecked s now 0 = Except.error TimerPanic.zeroPeriod) ∧
    (∀ s : PeriodicTimer, PeriodicTimer.stop s = PeriodicTimer.Stopped) ∧
    (∀ (s : OneshotTimer) (now d : Instant),
        OneshotTimer.schedule s now d = OneshotTimer.Scheduled (now + d)) ∧
    (∀ s : OneshotTimer, OneshotTimer.cancel s = OneshotTimer.Expired) := by
  refine ⟨?_, ?_, fun _ => rfl, fun _ _ _ => rfl, fun _ => rfl⟩
  · intro s now p hp
    simp [PeriodicTimer.startChecked, intervalChecked, hp, Except.map]
  · intro s now
    simp [PeriodicTimer.startChecked, intervalChecked, Except.map]

/-- Witness for the amended C8 at the non-zero period `2`. -/
theorem control_surface_total_amended_witness :
    PeriodicTimer.startChecked PeriodicTimer.Stopped 0 2
      = Except.ok (PeriodicTimer.Started (interval 0 2)) :=
  control_surface_total_amended.1 PeriodicTimer.Stopped 0 2 (by decide)

/-- Claim C9: the state a `Scheduled` oneshot reaches when its tick completes
naturally is the very state `cancel` produces — the dataless `Expired`
variant — so nothing afterwards can distinguish firing from cancellation. -/
theorem fired_equals_cancelled (d t : Instant) (h : d ≤ t) :
    (OneshotTimer.pollTick (OneshotTimer.Scheduled d) t).2
      = OneshotTimer.cancel (OneshotTimer.Scheduled d) := by
  simp [OneshotTimer.pollTick, sleepUntilPoll, h, OneshotTimer.cancel, OneshotTimer.expired]

/-- Witness for C9 at `d = 2`, `t = 2`. -/
theorem fired_equals_cancelled_witness :
    (OneshotTimer.pollTick (OneshotTimer.Scheduled 2) 2).2
      = OneshotTimer.cancel (OneshotTimer.Scheduled 2) :=
  fired_equals_cancelled 2 2 (by decide)

/-- Claim C10: the derived defaults are the inactive variants — `Stopped` for
`PeriodicTimer`, `Expired` for `OneshotTimer` — and a default-constructed
timer's tick never completes a poll. -/
theorem default_is_inactive :
    PeriodicTimer.default = PeriodicTimer.Stopped ∧
    OneshotTimer.default = OneshotTimer.Expired ∧
    (∀ t, (PeriodicTimer.pollTick PeriodicTimer.default t).1 = Poll.Pending) ∧
    (∀ t, (OneshotTimer.pollTick OneshotTimer.default t).1 = Poll.Pending) :=
  ⟨rfl, rfl, fun _ => rfl, fun _ => rfl⟩

end AsyncTimers
